import Mathlib

/-!
Verification of the heka message pipeline core against its specification.

The Go sources are shallowly embedded: pointer-valued scalar attributes
become Option values (none = nil pointer), byte slices become lists of
naturals, Go float64 values are carried by their 64-bit pattern (they are
only stored and compared, never computed with), and Go functions whose
receiver may be nil return in an Except monad whose error constructor
stands for a runtime panic.  Map iteration order (arbitrary in Go) is
fixed to association-list order; every property proved about such
iterations is order-insensitive (counts, emptiness, membership).
-/

namespace Heka

/-- A Go runtime panic reachable in the embedded code. -/
inductive Panic
  | nilDeref
  | outOfRange
  deriving DecidableEq, Repr

/-- Dereference of a possibly nil pointer: panics on nil. -/
def deref {α : Type} : Option α → Except Panic α
  | none => .error .nilDeref
  | some a => .ok a

/-- Go copy(dst, src): copies min(len dst, len src) elements into the
front of dst, leaving the rest of dst unchanged. -/
def goCopy (dst src : List Nat) : List Nat :=
  let n := min dst.length src.length
  src.take n ++ dst.drop n

/-! ## Field model (message.pb.go layout as used by message.go) -/

/-- Field_ValueType enum from the protobuf schema. -/
inductive Field_ValueType
  | STRING
  | BYTES
  | INTEGER
  | DOUBLE
  | BOOL
  deriving DecidableEq, Repr

/-- Field_ValueType_name: the enum value names used in error messages. -/
def Field_ValueType.name : Field_ValueType → String
  | .STRING => "STRING"
  | .BYTES => "BYTES"
  | .INTEGER => "INTEGER"
  | .DOUBLE => "DOUBLE"
  | .BOOL => "BOOL"

/-- A Go float64 value, represented by its 64-bit pattern.  The code
under verification only stores and appends doubles, never computes with
them, so the bit pattern is a faithful carrier. -/
structure Float64 where
  bits : Nat
  deriving DecidableEq, Repr

/-- A value of one of the five supported kinds accepted by AddValue
(string, byte slice, integer, float, bool).  Values of unsupported
reflect kinds are outside this model. -/
inductive FieldValue
  | vString (s : String)
  | vBytes (b : List Nat)
  | vInteger (i : Int)
  | vDouble (d : Float64)
  | vBool (b : Bool)
  deriving DecidableEq, Repr

/-- getValueType from message.go, restricted to the five supported value
kinds (on these kinds the Go function never returns an error). -/
def getValueType : FieldValue → Field_ValueType
  | .vString _ => .STRING
  | .vBytes _ => .BYTES
  | .vInteger _ => .INTEGER
  | .vDouble _ => .DOUBLE
  | .vBool _ => .BOOL

/-- Field from message.pb.go.  Name, ValueType and ValueFormat are
pointers in Go; every Field built by NewFieldInit has all three set, and
the claims under verification concern such fields, so they are carried
as plain values.  ValueFormat is the numeric protobuf enum code
(Field_RAW = 0). -/
structure Field where
  name : String
  valueType : Field_ValueType
  valueFormat : Nat
  valueString : List String
  valueBytes : List (List Nat)
  valueInteger : List Int
  valueDouble : List Float64
  valueBool : List Bool
  deriving DecidableEq, Repr

/-- NewFieldInit from message.go: sets key, value type and format, no
values. -/
def NewFieldInit (name : String) (valueType : Field_ValueType) (valueFormat : Nat) : Field :=
  { name := name, valueType := valueType, valueFormat := valueFormat,
    valueString := [], valueBytes := [], valueInteger := [], valueDouble := [], valueBool := [] }

/-- The error text AddValue produces for a type mismatch. -/
def mismatchError (declared attempted : Field_ValueType) : String :=
  "The field contains: " ++ declared.name ++ "; attempted to add " ++ attempted.name

/-- Body of Field.AddValue for a non-nil receiver: the resulting field
state and the returned error.  The Go len/cap growth dance is
semantically an append at the end of the matching value slice; the
BYTES case copies the incoming slice, which is the identity on the
immutable lists used here. -/
def Field.addValueCore (f : Field) (v : FieldValue) : Field × Option String :=
  let t := getValueType v
  if t ≠ f.valueType then
    (f, some (mismatchError f.valueType t))
  else
    match v with
    | .vString s => ({ f with valueString := f.valueString ++ [s] }, none)
    | .vBytes b => ({ f with valueBytes := f.valueBytes ++ [b] }, none)
    | .vInteger i => ({ f with valueInteger := f.valueInteger ++ [i] }, none)
    | .vDouble d => ({ f with valueDouble := f.valueDouble ++ [d] }, none)
    | .vBool b => ({ f with valueBool := f.valueBool ++ [b] }, none)

/-- Field.AddValue from message.go.  The receiver is a possibly nil
pointer; a nil receiver returns the error "Field is nil" without
panicking. -/
def Field.AddValue (f : Option Field) (v : FieldValue) : Except Panic (Option Field × Option String) :=
  match f with
  | none => .ok (none, some "Field is nil")
  | some f0 =>
      let r := Field.addValueCore f0 v
      .ok (some r.1, r.2)

/-- Statement-side description, following the claim wording: the field
with the value appended at the end of the corresponding value sequence,
all other components untouched. -/
def Field.withValueAppended (f : Field) (v : FieldValue) : Field :=
  match v with
  | .vString s => { f with valueString := f.valueString ++ [s] }
  | .vBytes b => { f with valueBytes := f.valueBytes ++ [b] }
  | .vInteger i => { f with valueInteger := f.valueInteger ++ [i] }
  | .vDouble d => { f with valueDouble := f.valueDouble ++ [d] }
  | .vBool b => { f with valueBool := f.valueBool ++ [b] }

/-! ## Message model -/

/-- Message from message.pb.go, as used by message.go: a byte-slice
uuid (none = nil slice), eight pointer-valued scalar attributes and a
slice of Field pointers. -/
structure Message where
  uuid : Option (List Nat)
  timestamp : Option Int
  typ : Option String
  logger : Option String
  severity : Option Int
  payload : Option String
  envVersion : Option String
  pid : Option Int
  hostname : Option String
  fields : List (Option Field)
  deriving DecidableEq, Repr

/-- The empty Message (all attributes absent). -/
def Message.empty : Message :=
  { uuid := none, timestamp := none, typ := none, logger := none, severity := none,
    payload := none, envVersion := none, pid := none, hostname := none, fields := [] }

/-- Message.SetUuid: nil receiver is a no-op; otherwise reallocates the
uuid buffer to 16 zero bytes when its length is not 16, then copies the
argument over its front. -/
def Message.SetUuid (m : Option Message) (v : List Nat) : Except Panic (Option Message) :=
  match m with
  | none => .ok none
  | some m0 =>
      let cur := m0.uuid.getD []
      let base := if cur.length ≠ 16 then List.replicate 16 0 else cur
      .ok (some { m0 with uuid := some (goCopy base v) })

/-- Message.SetTimestamp: nil receiver is a no-op; otherwise allocates
the pointer if absent and assigns through it. -/
def Message.SetTimestamp (m : Option Message) (v : Int) : Except Panic (Option Message) :=
  match m with
  | none => .ok none
  | some m0 => .ok (some { m0 with timestamp := some v })

/-- Message.SetType (same shape as SetTimestamp). -/
def Message.SetType (m : Option Message) (v : String) : Except Panic (Option Message) :=
  match m with
  | none => .ok none
  | some m0 => .ok (some { m0 with typ := some v })

/-- Message.SetLogger. -/
def Message.SetLogger (m : Option Message) (v : String) : Except Panic (Option Message) :=
  match m with
  | none => .ok none
  | some m0 => .ok (some { m0 with logger := some v })

/-- Message.SetSeverity. -/
def Message.SetSeverity (m : Option Message) (v : Int) : Except Panic (Option Message) :=
  match m with
  | none => .ok none
  | some m0 => .ok (some { m0 with severity := some v })

/-- Message.SetPayload. -/
def Message.SetPayload (m : Option Message) (v : String) : Except Panic (Option Message) :=
  match m with
  | none => .ok none
  | some m0 => .ok (some { m0 with payload := some v })

/-- Message.SetEnvVersion. -/
def Message.SetEnvVersion (m : Option Message) (v : String) : Except Panic (Option Message) :=
  match m with
  | none => .ok none
  | some m0 => .ok (some { m0 with envVersion := some v })

/-- Message.SetPid. -/
def Message.SetPid (m : Option Message) (v : Int) : Except Panic (Option Message) :=
  match m with
  | none => .ok none
  | some m0 => .ok (some { m0 with pid := some v })

/-- Message.SetHostname. -/
def Message.SetHostname (m : Option Message) (v : String) : Except Panic (Option Message) :=
  match m with
  | none => .ok none
  | some m0 => .ok (some { m0 with hostname := some v })

/-- Message.AddField: nil receiver is a no-op; otherwise the slice
growth is semantically an append of the (possibly nil) field pointer. -/
def Message.AddField (m : Option Message) (f : Option Field) : Except Panic (Option Message) :=
  match m with
  | none => .ok none
  | some m0 => .ok (some { m0 with fields := m0.fields ++ [f] })

/-! ## Reference JSON codec (MarshalJSON and serialize_map from message.go)

The protobuf-generated getters (message.pb.go, generated code) return
the dereferenced attribute or its zero value; they are used by
MarshalJSON.  The time and JSON formatting primitives come from the Go
standard library and are passed in as parameters, so every theorem
below holds for an arbitrary implementation of them. -/

/-- Generated getter: GetType. -/
def Message.GetType (m : Message) : String := m.typ.getD ""

/-- Generated getter: GetLogger. -/
def Message.GetLogger (m : Message) : String := m.logger.getD ""

/-- Generated getter: GetSeverity. -/
def Message.GetSeverity (m : Message) : Int := m.severity.getD 0

/-- Generated getter: GetPayload. -/
def Message.GetPayload (m : Message) : String := m.payload.getD ""

/-- Generated getter: GetEnvVersion. -/
def Message.GetEnvVersion (m : Message) : String := m.envVersion.getD ""

/-- Generated getter: GetPid. -/
def Message.GetPid (m : Message) : Int := m.pid.getD 0

/-- Generated getter: GetHostname. -/
def Message.GetHostname (m : Message) : String := m.hostname.getD ""

/-- One entry of serialize_map: for a STRING or DOUBLE field, json-encode
the name and the FIRST value only; indexing an empty value slice panics;
a nil field pointer panics when its value slice is read (its generated
GetValueType returns the STRING default); every other value type emits
the literal placeholder text from the source. -/
def serializeEntry (jsonStr : String → String) (jsonF64 : Float64 → String) :
    Option Field → Except Panic String
  | none => .error .nilDeref
  | some f =>
      match f.valueType with
      | .STRING =>
          match f.valueString.head? with
          | none => .error .outOfRange
          | some v0 => .ok (jsonStr f.name ++ ": " ++ jsonStr v0)
      | .DOUBLE =>
          match f.valueDouble.head? with
          | none => .error .outOfRange
          | some v0 => .ok (jsonStr f.name ++ ": " ++ jsonF64 v0)
      | _ => .ok "<something_else_here>"

/-- The comma-joined body of serialize_map (x is the seen-one-already
flag from the source loop). -/
def serializeFields (jsonStr : String → String) (jsonF64 : Float64 → String)
    (x : Bool) : List (Option Field) → Except Panic String
  | [] => .ok ""
  | f :: rest => do
      let sep := if x then ", " else ""
      let entry ← serializeEntry jsonStr jsonF64 f
      let restS ← serializeFields jsonStr jsonF64 true rest
      .ok (sep ++ entry ++ restS)

/-- serialize_map from message.go. -/
def serialize_map (jsonStr : String → String) (jsonF64 : Float64 → String)
    (msg_fields : List (Option Field)) : Except Panic String := do
  let body ← serializeFields jsonStr jsonF64 false msg_fields
  .ok ("\x7b" ++ body ++ "\x7d")

/-- Message.MarshalJSON from message.go.  The first step dereferences
self.Timestamp, which panics when the timestamp is absent; the uuid is
never emitted.  fmtTs stands for the RFC3339Nano rendering of
time.Unix(0, ts); jsonStr and jsonF64 stand for json.Marshal on strings
and floats. -/
def Message.MarshalJSON (fmtTs : Int → String) (jsonStr : String → String)
    (jsonF64 : Float64 → String) (m : Message) : Except Panic String := do
  let ts ← deref m.timestamp
  let fieldsS ← serialize_map jsonStr jsonF64 m.fields
  .ok ("\x7b\"timestamp\": \"" ++ fmtTs ts ++ "\", \"type\": \"" ++ m.GetType
    ++ "\", \"logger\": \"" ++ m.GetLogger
    ++ "\", \"severity\": " ++ toString m.GetSeverity
    ++ ", \"payload\": \"" ++ m.GetPayload
    ++ "\", \"env_version\": \"" ++ m.GetEnvVersion
    ++ "\", \"metlog_pid\": " ++ toString m.GetPid
    ++ ", \"metlog_hostname\": \"" ++ m.GetHostname
    ++ "\", \"fields\": " ++ fieldsS ++ "\x7d")

/-! ## Pipeline model (part_000 of the pipeline package)

PipelinePack is split into the plain-data fields (PackState) and the
plugin-instance maps plus the config reference (Pack), because plugin
behaviors are functions over the plain data and Lean forbids a structure
from containing functions over itself.  Pack carries exactly the fields
of the Go struct: MsgBytes (length and capacity), Message, Config,
Decoder, Decoders, Filters, OutputChans, Decoded, Blocked, FilterChain,
ChainCount, OutputNames.  Maps become association lists with unique
keys; OutputChans is carried as the list of names whose channel exists,
and a channel send is recorded as a trace event. -/

/-- The plain-data fields of PipelinePack. -/
structure PackState where
  msgBytesLen : Nat
  msgBytesCap : Nat
  message : Message
  decoder : String
  decoded : Bool
  blocked : Bool
  filterChain : String
  chainCount : Nat
  outputNames : List (String × Bool)
  deriving DecidableEq, Repr

/-- Outcome of a Decoder.Decode call.  Decoders populate the Message
from the raw bytes; the outcome carries the message state the decoder
left behind together with the control result (normal return with nil or
non-nil error, or a panic). -/
inductive DecodeOutcome
  | ok (m : Message)
  | err (e : String) (m : Message)
  | panics (m : Message)

/-- A Decoder instance: user code invoked on the pack. -/
def Decoder := PackState → DecodeOutcome

/-- Outcome of a Filter.FilterMsg call: the pack state the filter left
behind, with or without a panic. -/
inductive FilterOutcome
  | ok (s : PackState)
  | panics (s : PackState)

/-- A Filter instance: user code invoked on the pack. -/
def Filter := PackState → FilterOutcome

/-- FilterChain from config: ordered filter names plus output names. -/
structure FilterChainSpec where
  filters : List String
  outputs : List String
  deriving DecidableEq, Repr

/-- Outcome of a PluginGlobal.Event call. -/
inductive EventOutcome
  | ok
  | panics
  deriving DecidableEq, Repr

/-- A plugin global: its Event handler behavior. -/
structure PluginGlobalB where
  event : String → EventOutcome

/-- PluginWrapper from config.go as used here: the wrapper name and the
(possibly nil) shared global. -/
structure PluginWrapper where
  name : String
  global : Option PluginGlobalB

/-- PipelineConfig: the fields read by the code under verification.
Lookup.LocateChain is a pure function per the spec. -/
structure PipelineConfig where
  defaultDecoder : String
  defaultFilterChain : String
  filterChains : List (String × FilterChainSpec)
  lookupChain : Message → Option String
  poolSize : Nat
  inputs : List (String × PluginWrapper)
  decoders : List (String × PluginWrapper)
  filters : List (String × PluginWrapper)
  outputs : List (String × PluginWrapper)

/-- PipelinePack: plain data plus the per-pack plugin instance maps and
the config reference. -/
structure Pack where
  state : PackState
  config : PipelineConfig
  decoders : List (String × Decoder)
  filters : List (String × Filter)
  outputChans : List String

/-- Go map lookup on an association list. -/
def lookupA {α : Type} : List (String × α) → String → Option α
  | [], _ => none
  | (k, v) :: rest, key => if k = key then some v else lookupA rest key

/-- Go map insert on an association list (update in place or append). -/
def mapInsert (m : List (String × Bool)) (k : String) (v : Bool) : List (String × Bool) :=
  match m with
  | [] => [(k, v)]
  | (k0, v0) :: rest => if k0 = k then (k, v) :: rest else (k0, v0) :: mapInsert rest k v

/-- PipelinePack.Zero: scratch buffer re-extended to capacity, decoder
and filter chain reset to the config defaults, flags cleared, and the
output-name set emptied in place (the source loop deletes every key).
Everything else is untouched. -/
def Pack.Zero (p : Pack) : Pack :=
  { p with state := { p.state with
      msgBytesLen := p.state.msgBytesCap,
      decoder := p.config.defaultDecoder,
      decoded := false,
      blocked := false,
      filterChain := p.config.defaultFilterChain,
      outputNames := [] } }

/-- safe_filter: invokes the filter under a recover that flags the pack
blocked on a panic.  A missing map entry yields a nil Filter interface
in Go; calling FilterMsg on it panics before mutating the pack, so the
recover blocks the pack as received. -/
def safe_filter (filter : Option Filter) (s : PackState) : PackState :=
  match filter with
  | none => { s with blocked := true }
  | some f =>
      match f s with
      | .ok s1 => s1
      | .panics s1 => { s1 with blocked := true }

/-- The filter loop of filterProcessor: each name is resolved in the
per-pack filter map and invoked through safe_filter; after each call
the loop returns early when the pack is blocked.  The second component
is the list of filter names invoked, in order. -/
def runFilters (filters : List (String × Filter)) :
    List String → PackState → PackState × List String
  | [], s => (s, [])
  | n :: rest, s =>
      let s1 := safe_filter (lookupA filters n) s
      if s1.blocked then (s1, [n])
      else
        let r := runFilters filters rest s1
        (r.1, n :: r.2)

/-- filterProcessor from part_000: clear the output-name set, select the
chain via the lookup (falling back to the pack chain), bail out when the
chain is not configured, seed the output-name set from the chain, then
run the filters in order. -/
def filterProcessor (p : Pack) : Pack × List String :=
  let s0 := { p.state with outputNames := [] }
  let sel :=
    match p.config.lookupChain s0.message with
    | some nm => (nm, { s0 with filterChain := nm })
    | none => (s0.filterChain, s0)
  match lookupA p.config.filterChains sel.1 with
  | none => ({ p with state := sel.2 }, [])
  | some chain =>
      let s2 := { sel.2 with
        outputNames := chain.outputs.foldl (fun m o => mapInsert m o true) [] }
      let r := runFilters p.filters chain.filters s2
      ({ p with state := r.1 }, r.2)

/-- The fan-out loop of pipeline: names mapped to false are skipped, a
name whose channel is missing from OutputChans is skipped with a log
line, every other name receives one channel send.  Returns the send
events in iteration order. -/
def fanoutSends (outputNames : List (String × Bool)) (outputChans : List String) : List String :=
  match outputNames with
  | [] => []
  | (n, use) :: rest =>
      if use then
        if outputChans.contains n then n :: fanoutSends rest outputChans
        else fanoutSends rest outputChans
      else fanoutSends rest outputChans

/-- Execution trace of one dispatcher iteration: whether Decode was
invoked, which filters were invoked, and which outputs received a
channel send. -/
structure Trace where
  decodeInvoked : Bool
  filtersInvoked : List String
  sends : List String
  deriving DecidableEq, Repr

/-- Result of the pipeline function: a normal return carrying the
recycle flag, or a panic escaping the function. -/
inductive PipelineResult
  | done (recycle : Bool) (p : Pack) (tr : Trace)
  | panicked (p : Pack) (tr : Trace)

/-- Whether a pipeline run ended in an escaped panic. -/
def PipelineResult.isPanicked : PipelineResult → Bool
  | .done _ _ _ => false
  | .panicked _ _ => true

/-- Result of the decode stage of pipeline. -/
inductive DecodeStage
  | recycleNow (p : Pack) (decodeInvoked : Bool)
  | proceed (p : Pack) (decodeInvoked : Bool)
  | panicked (p : Pack)

/-- The decode stage of pipeline (part_000): skip when already decoded;
an unknown decoder name recycles without invoking anything; otherwise
Decode is called directly, NOT through safe_decode (the source carries a
TODO to that effect), so a decoder panic escapes; a decode error
recycles; success marks the pack decoded. -/
def decodeStage (p : Pack) : DecodeStage :=
  if p.state.decoded then .proceed p false
  else
    match lookupA p.decoders p.state.decoder with
    | none => .recycleNow p false
    | some d =>
        match d p.state with
        | .panics m => .panicked { p with state := { p.state with message := m } }
        | .err _ m => .recycleNow { p with state := { p.state with message := m } } true
        | .ok m => .proceed { p with state := { p.state with message := m, decoded := true } } true

/-- The filter and fan-out stages of pipeline: run filterProcessor; a
blocked pack recycles with no sends; otherwise fan out and recycle
exactly when no send succeeded. -/
def filterFanout (dInv : Bool) (p : Pack) : PipelineResult :=
  let r := filterProcessor p
  if r.1.state.blocked then .done true r.1 ⟨dInv, r.2, []⟩
  else
    let sends := fanoutSends r.1.state.outputNames r.1.outputChans
    .done sends.isEmpty r.1 ⟨dInv, r.2, sends⟩

/-- pipeline from part_000: decode stage, then filters and fan-out. -/
def pipeline (p : Pack) : PipelineResult :=
  match decodeStage p with
  | .panicked p1 => .panicked p1 ⟨true, [], []⟩
  | .recycleNow p1 dInv => .done true p1 ⟨dInv, [], []⟩
  | .proceed p1 dInv => filterFanout dInv p1

/-- safe_decode from part_000 (present in the source but not called by
pipeline): invokes Decode under a recover that converts a panic into the
fixed error string. -/
def safe_decode (d : Decoder) (s : PackState) : Option String × Message :=
  match d s with
  | .ok m => (none, m)
  | .err e m => (some e, m)
  | .panics m => (some "Error running decoder on pack.", m)

/-! ## Event broadcast (part_000) -/

/-- safe_plugin_global_event: invokes the global Event handler under a
recover, so the call returns whether or not the handler panics. -/
def safe_plugin_global_event (g : PluginGlobalB) (eventType : String) : EventOutcome :=
  g.event eventType

/-- One wrapper-map pass of BroadcastEvent: every wrapper whose global
is non-nil has its Event handler invoked exactly once through
safe_plugin_global_event; the trace records the wrapper key and the
outcome of the (recovered) call. -/
def broadcastList (ws : List (String × PluginWrapper)) (eventType : String) :
    List (String × EventOutcome) :=
  match ws with
  | [] => []
  | (n, w) :: rest =>
      match w.global with
      | none => broadcastList rest eventType
      | some g => (n, safe_plugin_global_event g eventType) :: broadcastList rest eventType

/-- BroadcastEvent from part_000: posts the event on the notify bus
(external library, out of scope here), then walks config.Filters and
config.Outputs — and only those two wrapper maps — invoking each
non-nil global. -/
def BroadcastEvent (config : PipelineConfig) (eventType : String) :
    List (String × EventOutcome) :=
  broadcastList config.filters eventType ++ broadcastList config.outputs eventType

/-! ## Runner adapter (part_004) -/

/-- A scratch object handed around by the Runner; its content is never
inspected by the code under verification, only its identity matters. -/
abbrev Scratch := Nat

/-- Outcome of a DataRecycler.PrepOutData call. -/
inductive PrepOutcome
  | ok
  | err (e : String)
  | panics
  deriving DecidableEq, Repr

/-- Outcome of a DataRecycler.ZeroOutData call. -/
inductive ZeroOutcome
  | ok
  | panics
  deriving DecidableEq, Repr

/-- A DataRecycler: the behaviors of its PrepOutData and ZeroOutData
methods (user code; either may panic). -/
structure DataRecyclerB where
  prep : PackState → Scratch → Option Nat → PrepOutcome
  zero : Scratch → ZeroOutcome

/-- The channel effects of one Runner per-message call: whether
ZeroOutData was invoked, what was pushed on recycleChan, and what was
sent on dataChan. -/
structure RunnerEffects where
  zeroInvoked : Bool
  recycled : Option Scratch
  sentData : Option Scratch

/-- Runner.RecycleOutData: calls ZeroOutData and then pushes the scratch
on recycleChan; the surrounding recover means a ZeroOutData panic is
logged and the scratch is NOT pushed (the source logs that it is not
replacing the recycle channel entry). -/
def RecycleOutData (r : DataRecyclerB) (s : Scratch) : RunnerEffects :=
  match r.zero s with
  | .ok => { zeroInvoked := true, recycled := some s, sentData := none }
  | .panics => { zeroInvoked := true, recycled := none, sentData := none }

/-- safe_prepoutdata: PrepOutData under a recover converting a panic to
a non-nil error. -/
def safe_prepoutdata (r : DataRecyclerB) (p : PackState) (s : Scratch)
    (timeout : Option Nat) : Option String :=
  match r.prep p s timeout with
  | .ok => none
  | .err e => some e
  | .panics => some "PrepOutData panic detected"

/-- Runner.Deliver: prep the claimed scratch (nil timeout); on error log
and recycle it, otherwise send it on dataChan. -/
def Runner.Deliver (r : DataRecyclerB) (p : PackState) (s : Scratch) : RunnerEffects :=
  match safe_prepoutdata r p s none with
  | some _ => RecycleOutData r s
  | none => { zeroInvoked := false, recycled := none, sentData := some s }

/-- Runner.FilterMsg: identical channel discipline to Deliver. -/
def Runner.FilterMsg (r : DataRecyclerB) (p : PackState) (s : Scratch) : RunnerEffects :=
  match safe_prepoutdata r p s none with
  | some _ => RecycleOutData r s
  | none => { zeroInvoked := false, recycled := none, sentData := some s }

/-- Runner.Read: same discipline with a caller-supplied timeout, also
returning the error. -/
def Runner.Read (r : DataRecyclerB) (p : PackState) (s : Scratch)
    (timeout : Option Nat) : RunnerEffects × Option String :=
  match safe_prepoutdata r p s timeout with
  | some e => (RecycleOutData r s, some e)
  | none => ({ zeroInvoked := false, recycled := none, sentData := some s }, none)

/-! ## Concrete instances used to evaluate the model -/

/-- A minimal configuration: defaults only, no chains, no wrappers. -/
def cfg0 : PipelineConfig :=
  { defaultDecoder := "d", defaultFilterChain := "c", filterChains := [],
    lookupChain := fun _ => none, poolSize := 1,
    inputs := [], decoders := [], filters := [], outputs := [] }

/-- A zeroed pack state expecting decoder d and chain c. -/
def state0 : PackState :=
  { msgBytesLen := 0, msgBytesCap := 4, message := Message.empty, decoder := "d",
    decoded := false, blocked := false, filterChain := "c", chainCount := 0,
    outputNames := [] }

/-- A pack whose configured decoder panics on every input. -/
def packC2 : Pack :=
  { state := state0, config := cfg0,
    decoders := [("d", fun s => DecodeOutcome.panics s.message)],
    filters := [], outputChans := [] }

/-- A pack whose decoder map is empty. -/
def packC6a : Pack :=
  { state := state0, config := cfg0, decoders := [], filters := [], outputChans := [] }

/-- A pack whose configured decoder always reports an error. -/
def packC6b : Pack :=
  { state := state0, config := cfg0,
    decoders := [("d", fun s => DecodeOutcome.err "bad" s.message)],
    filters := [], outputChans := [] }

/-- A pack whose configured decoder always succeeds. -/
def packC6c : Pack :=
  { state := state0, config := cfg0,
    decoders := [("d", fun s => DecodeOutcome.ok s.message)],
    filters := [], outputChans := [] }

/-- A configuration with one chain c fanning out to outputs A and B and
running no filters. -/
def cfgC3 : PipelineConfig :=
  { cfg0 with filterChains := [("c", { filters := [], outputs := ["A", "B"] })] }

/-- An already decoded pack routed through chain c, where only the
channel of output A exists. -/
def packC3 : Pack :=
  { state := { state0 with decoded := true }, config := cfgC3,
    decoders := [], filters := [], outputChans := ["A"] }

/-- A filter map where f1 and f3 are well behaved and f2 panics. -/
def flC4 : List (String × Filter) :=
  [("f1", fun s => FilterOutcome.ok s),
   ("f2", fun s => FilterOutcome.panics s),
   ("f3", fun s => FilterOutcome.ok s)]

/-- A configuration running the chain [f1, f2, f3] with output A. -/
def cfgC4 : PipelineConfig :=
  { cfg0 with filterChains := [("c", { filters := ["f1", "f2", "f3"], outputs := ["A"] })] }

/-- An already decoded pack whose chain contains the panicking f2. -/
def packC4 : Pack :=
  { state := { state0 with decoded := true }, config := cfgC4,
    decoders := [], filters := flC4, outputChans := ["A"] }

/-- A recycler whose PrepOutData fails and whose ZeroOutData panics. -/
def recC7 : DataRecyclerB :=
  { prep := fun _ _ _ => .err "boom", zero := fun _ => .panics }

/-- A recycler whose PrepOutData fails and whose ZeroOutData returns. -/
def recC7b : DataRecyclerB :=
  { prep := fun _ _ _ => .err "boom", zero := fun _ => .ok }

/-- A plugin global whose Event handler returns normally. -/
def gC9 : PluginGlobalB := { event := fun _ => .ok }

/-- A configuration whose only wrapper with a non-nil global is a
decoder wrapper. -/
def cfgC9 : PipelineConfig :=
  { cfg0 with decoders := [("dec", { name := "dec", global := some gC9 })] }

/-- A message carrying a timestamp and a single INTEGER field. -/
def msgC8 : Message :=
  { Message.empty with
    timestamp := some 0,
    fields := [some { name := "n", valueType := .INTEGER, valueFormat := 0,
                      valueString := [], valueBytes := [], valueInteger := [7],
                      valueDouble := [], valueBool := [] }] }

/-! ## Theorems -/

/-- C1: for every Field with declared value-type t and every value whose
value-type differs from t, AddValue returns an error and leaves the
Field completely unchanged (name, value-type, format and every value
sequence); when the types agree, AddValue appends the value at the end
of the corresponding value sequence and returns nil. -/
theorem addValue_homogeneity (f : Field) (v : FieldValue) :
    (getValueType v ≠ f.valueType →
      Field.AddValue (some f) v =
        .ok (some f, some (mismatchError f.valueType (getValueType v)))) ∧
    (getValueType v = f.valueType →
      Field.AddValue (some f) v = .ok (some (f.withValueAppended v), none)) := by
  constructor
  · intro h
    simp [Field.AddValue, Field.addValueCore, h]
  · intro h
    cases v <;>
      simp_all [Field.AddValue, Field.addValueCore, Field.withValueAppended, getValueType]

/-- Witness for C1 at a concrete STRING field: adding an integer is
rejected and changes nothing, adding a string appends it. -/
theorem addValue_homogeneity_witness :
    Field.AddValue (some (NewFieldInit "n" .STRING 0)) (FieldValue.vInteger 3) =
      .ok (some (NewFieldInit "n" .STRING 0),
           some "The field contains: STRING; attempted to add INTEGER") ∧
    Field.AddValue (some (NewFieldInit "n" .STRING 0)) (FieldValue.vString "x") =
      .ok (some ((NewFieldInit "n" .STRING 0).withValueAppended (FieldValue.vString "x")),
           none) :=
  ⟨(addValue_homogeneity (NewFieldInit "n" .STRING 0) (FieldValue.vInteger 3)).1 (by decide),
   (addValue_homogeneity (NewFieldInit "n" .STRING 0) (FieldValue.vString "x")).2 rfl⟩

/-- C5: Pack.Zero re-extends the scratch buffer to its capacity, resets
the decoder and filter chain to the config defaults, clears the decoded
and blocked flags, empties the output-name set, and leaves the Message,
the Config reference and the Decoders, Filters and OutputChans maps
unchanged. -/
theorem zero_resets_exactly (p : Pack) :
    (p.Zero).state.msgBytesLen = p.state.msgBytesCap ∧
    (p.Zero).state.decoder = p.config.defaultDecoder ∧
    (p.Zero).state.decoded = false ∧
    (p.Zero).state.blocked = false ∧
    (p.Zero).state.filterChain = p.config.defaultFilterChain ∧
    (p.Zero).state.outputNames = [] ∧
    (p.Zero).state.message = p.state.message ∧
    (p.Zero).config = p.config ∧
    (p.Zero).decoders = p.decoders ∧
    (p.Zero).filters = p.filters ∧
    (p.Zero).outputChans = p.outputChans :=
  ⟨rfl, rfl, rfl, rfl, rfl, rfl, rfl, rfl, rfl, rfl, rfl⟩

/-- C10: every Message setter and AddField is a non-panicking no-op on a
nil receiver, and Field.AddValue on a nil receiver returns the error
"Field is nil" instead of panicking. -/
theorem nil_receiver_noop (bs : List Nat) (t sv pd : Int) (s1 s2 s3 s4 s5 : String)
    (f : Option Field) (v : FieldValue) :
    Message.SetUuid none bs = .ok none ∧
    Message.SetTimestamp none t = .ok none ∧
    Message.SetType none s1 = .ok none ∧
    Message.SetLogger none s2 = .ok none ∧
    Message.SetSeverity none sv = .ok none ∧
    Message.SetPayload none s3 = .ok none ∧
    Message.SetEnvVersion none s4 = .ok none ∧
    Message.SetPid none pd = .ok none ∧
    Message.SetHostname none s5 = .ok none ∧
    Message.AddField none f = .ok none ∧
    Field.AddValue none v = .ok (none, some "Field is nil") :=
  ⟨rfl, rfl, rfl, rfl, rfl, rfl, rfl, rfl, rfl, rfl, rfl⟩

/-- C2: the dispatcher does NOT wrap Decode in the panic-safe wrapper —
a decoder panic escapes the pipeline function (crashing the dispatcher
loop) instead of being captured, even though the unused safe_decode
wrapper in the same file would have converted it into a decode error. -/
theorem decode_panic_escapes :
    (pipeline packC2).isPanicked = true ∧
    (safe_decode (fun s => DecodeOutcome.panics s.message) packC2.state).1 =
      some "Error running decoder on pack." :=
  ⟨rfl, rfl⟩

/-- C8: the reference JSON codec cannot round-trip every Message:
MarshalJSON dereferences the Timestamp pointer, panicking whenever the
timestamp is absent (first conjunct, for arbitrary library formatting
primitives); and for a Message with an INTEGER field it emits the
literal placeholder from serialize_map inside the fields object, which
is not JSON, so UnmarshalJSON cannot reconstruct the Message (second
conjunct, at concrete formatting primitives). -/
theorem marshal_not_invertible :
    (∀ (fmtTs : Int → String) (jsonStr : String → String) (jsonF64 : Float64 → String),
      Message.MarshalJSON fmtTs jsonStr jsonF64 Message.empty = .error Panic.nilDeref) ∧
    Message.MarshalJSON (fun _ => "T") (fun s => "\"" ++ s ++ "\"") (fun _ => "0") msgC8 =
      .ok "\x7b\"timestamp\": \"T\", \"type\": \"\", \"logger\": \"\", \"severity\": 0, \"payload\": \"\", \"env_version\": \"\", \"metlog_pid\": 0, \"metlog_hostname\": \"\", \"fields\": \x7b<something_else_here>\x7d\x7d" :=
  ⟨fun _ _ _ => rfl, rfl⟩

/-- C6: on an undecoded Pack, a decoder name missing from the decoder
map recycles the Pack untouched without invoking any decoder; a decode
error recycles with the decoded flag still false; a decode success sets
decoded and hands the Pack to the filter stage. -/
theorem decode_stage_behavior (p : Pack) (h : p.state.decoded = false) :
    (lookupA p.decoders p.state.decoder = none →
      pipeline p = .done true p ⟨false, [], []⟩) ∧
    (∀ (d : Decoder) (e : String) (m : Message),
      lookupA p.decoders p.state.decoder = some d → d p.state = .err e m →
      pipeline p = .done true { p with state := { p.state with message := m } } ⟨true, [], []⟩ ∧
        ({ p with state := { p.state with message := m } } : Pack).state.decoded = false) ∧
    (∀ (d : Decoder) (m : Message),
      lookupA p.decoders p.state.decoder = some d → d p.state = .ok m →
      pipeline p =
        filterFanout true { p with state := { p.state with message := m, decoded := true } }) := by
  refine ⟨?_, ?_, ?_⟩
  · intro hl
    simp [pipeline, decodeStage, h, hl]
  · intro d e m hl hd
    refine ⟨?_, h⟩
    simp [pipeline, decodeStage, h, hl, hd]
  · intro d m hl hd
    simp [pipeline, decodeStage, h, hl, hd]

/-- Witness for C6 at three concrete packs: empty decoder map, failing
decoder, succeeding decoder. -/
theorem decode_stage_behavior_witness :
    pipeline packC6a = .done true packC6a ⟨false, [], []⟩ ∧
    pipeline packC6b =
      .done true { packC6b with state := { packC6b.state with message := Message.empty } }
        ⟨true, [], []⟩ ∧
    pipeline packC6c =
      filterFanout true
        { packC6c with state := { packC6c.state with message := Message.empty, decoded := true } } :=
  ⟨(decode_stage_behavior packC6a rfl).1 rfl,
   ((decode_stage_behavior packC6b rfl).2.1 _ "bad" Message.empty rfl rfl).1,
   (decode_stage_behavior packC6c rfl).2.2 _ Message.empty rfl rfl⟩

/-- The send list of the fan-out loop contains each output name once
exactly when the name is mapped to true in the output-name set and its
channel exists, provided the set has no duplicate keys. -/
theorem fanoutSends_count (outputNames : List (String × Bool)) (chans : List String)
    (hnd : (outputNames.map Prod.fst).Nodup) (n : String) :
    (fanoutSends outputNames chans).count n =
      if (n, true) ∈ outputNames ∧ n ∈ chans then 1 else 0 := by
  induction outputNames with
  | nil => simp [fanoutSends]
  | cons head rest ih =>
    obtain ⟨k, use⟩ := head
    simp only [List.map_cons, List.nodup_cons] at hnd
    obtain ⟨hk, hrest⟩ := hnd
    have hmemk : (n, true) ∈ rest → n ∈ rest.map Prod.fst := by
      intro hm
      exact List.mem_map.2 ⟨(n, true), hm, rfl⟩
    by_cases hkn : k = n
    · subst hkn
      have hnotin : ¬ (k, true) ∈ rest := fun hm => hk (hmemk hm)
      cases use with
      | false =>
        simp [fanoutSends, ih hrest, hnotin]
      | true =>
        by_cases hc : k ∈ chans
        · simp [fanoutSends, hc, ih hrest, hnotin]
        · simp [fanoutSends, hc, ih hrest, hnotin]
    · cases use with
      | false =>
        simp [fanoutSends, ih hrest, hkn]
      | true =>
        by_cases hc : k ∈ chans
        · simp [fanoutSends, hc, ih hrest, hkn, Ne.symm hkn]
        · simp [fanoutSends, hc, ih hrest, hkn, Ne.symm hkn]

/-- C3: for a decoded Pack left non-blocked by the filter stage, the
dispatcher sends the Pack exactly once on the channel of each name in
its output-name set whose channel exists (missing channels are
skipped), and returns recycle = true exactly when the number of
successful sends is zero. -/
theorem fanout_exactly_once (p : Pack)
    (hdec : p.state.decoded = true)
    (hnb : (filterProcessor p).1.state.blocked = false)
    (hnd : (((filterProcessor p).1.state.outputNames).map Prod.fst).Nodup) :
    pipeline p =
      .done (fanoutSends (filterProcessor p).1.state.outputNames
               (filterProcessor p).1.outputChans).isEmpty
        (filterProcessor p).1
        ⟨false, (filterProcessor p).2,
         fanoutSends (filterProcessor p).1.state.outputNames (filterProcessor p).1.outputChans⟩ ∧
    (∀ n, (fanoutSends (filterProcessor p).1.state.outputNames
             (filterProcessor p).1.outputChans).count n =
      if (n, true) ∈ (filterProcessor p).1.state.outputNames ∧
          n ∈ (filterProcessor p).1.outputChans then 1 else 0) ∧
    ((fanoutSends (filterProcessor p).1.state.outputNames
        (filterProcessor p).1.outputChans).isEmpty = true ↔
      fanoutSends (filterProcessor p).1.state.outputNames
        (filterProcessor p).1.outputChans = []) := by
  refine ⟨?_, ?_, ?_⟩
  · simp [pipeline, decodeStage, hdec, filterFanout, hnb]
  · intro n
    exact fanoutSends_count _ _ hnd n
  · exact List.isEmpty_iff

/-- Witness for C3 at a concrete pack whose chain fans out to A and B
while only the channel of A exists: A is sent exactly once, B zero
times, and recycle is false. -/
theorem fanout_exactly_once_witness :
    pipeline packC3 =
      .done false (filterProcessor packC3).1 ⟨false, [], ["A"]⟩ ∧
    (fanoutSends (filterProcessor packC3).1.state.outputNames
       (filterProcessor packC3).1.outputChans).count "A" = 1 ∧
    (fanoutSends (filterProcessor packC3).1.state.outputNames
       (filterProcessor packC3).1.outputChans).count "B" = 0 := by
  have h := fanout_exactly_once packC3 rfl rfl (by decide)
  refine ⟨h.1, ?_, ?_⟩
  · rw [h.2.1 "A"]
    decide
  · rw [h.2.1 "B"]
    decide

/-- The filter names invoked by the filter loop form a prefix of the
chain. -/
theorem runFilters_take (fl : List (String × Filter)) (ns : List String) (s : PackState) :
    (runFilters fl ns s).2 = ns.take (runFilters fl ns s).2.length := by
  induction ns generalizing s with
  | nil => simp [runFilters]
  | cons n rest ih =>
    by_cases hb : (safe_filter (lookupA fl n) s).blocked
    · simp [runFilters, hb]
    · simp only [runFilters, hb, if_neg, Bool.false_eq_true, not_false_iff, ite_false,
        List.length_cons, List.take_succ_cons, List.cons.injEq, true_and]
      exact ih (safe_filter (lookupA fl n) s)

/-- The filter loop stops before the end of the chain only because the
pack became blocked. -/
theorem runFilters_stop_blocked (fl : List (String × Filter)) (ns : List String)
    (s : PackState) :
    (runFilters fl ns s).2.length < ns.length → (runFilters fl ns s).1.blocked = true := by
  induction ns generalizing s with
  | nil => simp [runFilters]
  | cons n rest ih =>
    intro hlt
    by_cases hb : (safe_filter (lookupA fl n) s).blocked
    · simp [runFilters, hb]
    · simp only [runFilters, hb, Bool.false_eq_true, not_false_iff, ite_false,
        List.length_cons] at hlt ⊢
      exact ih (safe_filter (lookupA fl n) s) (Nat.lt_of_succ_lt_succ hlt)

/-- Every filter that was followed by another invocation had left the
pack non-blocked: the loop never continues past a blocking filter. -/
theorem runFilters_progress (fl : List (String × Filter)) (ns : List String)
    (s : PackState) (k : Nat) :
    k + 1 < (runFilters fl ns s).2.length →
    (runFilters fl (ns.take (k + 1)) s).1.blocked = false := by
  induction ns generalizing s k with
  | nil => simp [runFilters]
  | cons n rest ih =>
    intro hk
    by_cases hb : (safe_filter (lookupA fl n) s).blocked
    · simp [runFilters, hb] at hk
    · cases k with
      | zero =>
        simp [runFilters, hb]
      | succ j =>
        simp only [runFilters, hb, Bool.false_eq_true, not_false_iff, ite_false,
          List.length_cons] at hk
        simp only [List.take_succ_cons, runFilters, hb, Bool.false_eq_true, not_false_iff,
          ite_false]
        exact ih (safe_filter (lookupA fl n) s) j (Nat.lt_of_succ_lt_succ hk)

/-- C4: a panicking filter leaves the pack blocked via the safe wrapper;
the filter loop invokes a prefix of the chain, stops early only when
blocked, and never invokes a filter after one that left the pack
blocked; and a pack blocked by the filter stage skips fan-out (no
sends) and is recycled by the dispatcher. -/
theorem blocked_short_circuit :
    (∀ (f : Filter) (t t1 : PackState), f t = .panics t1 →
       safe_filter (some f) t = { t1 with blocked := true }) ∧
    (∀ (fl : List (String × Filter)) (ns : List String) (s : PackState),
       (runFilters fl ns s).2 = ns.take (runFilters fl ns s).2.length ∧
       ((runFilters fl ns s).2.length < ns.length → (runFilters fl ns s).1.blocked = true) ∧
       (∀ k, k + 1 < (runFilters fl ns s).2.length →
         (runFilters fl (ns.take (k + 1)) s).1.blocked = false)) ∧
    (∀ (dInv : Bool) (p : Pack), (filterProcessor p).1.state.blocked = true →
       filterFanout dInv p = .done true (filterProcessor p).1 ⟨dInv, (filterProcessor p).2, []⟩) := by
  refine ⟨?_, ?_, ?_⟩
  · intro f t t1 h
    simp [safe_filter, h]
  · intro fl ns s
    exact ⟨runFilters_take fl ns s, runFilters_stop_blocked fl ns s,
      fun k => runFilters_progress fl ns s k⟩
  · intro dInv p h
    simp [filterFanout, h]

/-- Witness for C4 on the chain [f1, f2, f3] where f2 panics: the safe
wrapper blocks the pack, the invoked trace is the prefix [f1, f2], f3 is
never invoked, f1 had left the pack non-blocked, and the blocked pack is
recycled with no sends. -/
theorem blocked_short_circuit_witness :
    safe_filter (some (fun s => FilterOutcome.panics s)) state0 =
      { state0 with blocked := true } ∧
    (runFilters flC4 ["f1", "f2", "f3"] state0).1.blocked = true ∧
    (runFilters flC4 (["f1", "f2", "f3"].take 1) state0).1.blocked = false ∧
    filterFanout true packC4 =
      .done true (filterProcessor packC4).1 ⟨true, (filterProcessor packC4).2, []⟩ := by
  refine ⟨blocked_short_circuit.1 (fun s => FilterOutcome.panics s) state0 state0 rfl,
    (blocked_short_circuit.2.1 flC4 ["f1", "f2", "f3"] state0).2.1 (by decide),
    (blocked_short_circuit.2.1 flC4 ["f1", "f2", "f3"] state0).2.2 0 (by decide),
    blocked_short_circuit.2.2 true packC4 rfl⟩

/-- C7 counterexample: with a recycler whose PrepOutData errors and
whose ZeroOutData panics, Deliver leaves the scratch neither on
dataChan nor on recycleChan — the scratch IS lost, contradicting the
claim that it is always returned to the recycle channel. -/
theorem prep_error_scratch_lost :
    recC7.prep state0 0 none = .err "boom" ∧
    (Runner.Deliver recC7 state0 0).zeroInvoked = true ∧
    (Runner.Deliver recC7 state0 0).recycled = none ∧
    (Runner.Deliver recC7 state0 0).sentData = none :=
  ⟨rfl, rfl, rfl, rfl⟩

/-- C7 (amended): in Deliver, FilterMsg and Read, whenever PrepOutData
returns an error or panics, the scratch is passed to ZeroOutData and is
never sent on dataChan; it is returned to recycleChan provided
ZeroOutData returns normally (a ZeroOutData panic is recovered, logged,
and drops the scratch). -/
theorem prep_error_recycles :
    (∀ (r : DataRecyclerB) (p : PackState) (s : Scratch),
       r.prep p s none ≠ .ok →
       (Runner.Deliver r p s).sentData = none ∧
       (Runner.Deliver r p s).zeroInvoked = true ∧
       (r.zero s = .ok → (Runner.Deliver r p s).recycled = some s)) ∧
    (∀ (r : DataRecyclerB) (p : PackState) (s : Scratch),
       r.prep p s none ≠ .ok →
       (Runner.FilterMsg r p s).sentData = none ∧
       (Runner.FilterMsg r p s).zeroInvoked = true ∧
       (r.zero s = .ok → (Runner.FilterMsg r p s).recycled = some s)) ∧
    (∀ (r : DataRecyclerB) (p : PackState) (s : Scratch) (t : Option Nat),
       r.prep p s t ≠ .ok →
       (Runner.Read r p s t).1.sentData = none ∧
       (Runner.Read r p s t).1.zeroInvoked = true ∧
       (r.zero s = .ok → (Runner.Read r p s t).1.recycled = some s)) := by
  refine ⟨?_, ?_, ?_⟩
  · intro r p s h
    cases hp : r.prep p s none with
    | ok => exact absurd hp h
    | err e =>
      cases hz : r.zero s <;>
        simp_all [Runner.Deliver, safe_prepoutdata, RecycleOutData]
    | panics =>
      cases hz : r.zero s <;>
        simp_all [Runner.Deliver, safe_prepoutdata, RecycleOutData]
  · intro r p s h
    cases hp : r.prep p s none with
    | ok => exact absurd hp h
    | err e =>
      cases hz : r.zero s <;>
        simp_all [Runner.FilterMsg, safe_prepoutdata, RecycleOutData]
    | panics =>
      cases hz : r.zero s <;>
        simp_all [Runner.FilterMsg, safe_prepoutdata, RecycleOutData]
  · intro r p s t h
    cases hp : r.prep p s t with
    | ok => exact absurd hp h
    | err e =>
      cases hz : r.zero s <;>
        simp_all [Runner.Read, safe_prepoutdata, RecycleOutData]
    | panics =>
      cases hz : r.zero s <;>
        simp_all [Runner.Read, safe_prepoutdata, RecycleOutData]

/-- Witness for amended C7 with a failing PrepOutData and a well-behaved
ZeroOutData: the scratch is zeroed and recycled, never sent. -/
theorem prep_error_recycles_witness :
    (Runner.Deliver recC7b state0 0).sentData = none ∧
    (Runner.Deliver recC7b state0 0).recycled = some 0 ∧
    (Runner.FilterMsg recC7b state0 0).recycled = some 0 ∧
    (Runner.Read recC7b state0 0 none).1.recycled = some 0 :=
  ⟨(prep_error_recycles.1 recC7b state0 0 (by decide)).1,
   (prep_error_recycles.1 recC7b state0 0 (by decide)).2.2 rfl,
   (prep_error_recycles.2.1 recC7b state0 0 (by decide)).2.2 rfl,
   (prep_error_recycles.2.2 recC7b state0 0 none (by decide)).2.2 rfl⟩

/-- One wrapper-map pass of BroadcastEvent invokes each wrapper with a
non-nil global exactly once, given unique map keys. -/
theorem broadcastList_count (ws : List (String × PluginWrapper)) (e : String)
    (hnd : (ws.map Prod.fst).Nodup) (n : String) :
    ((broadcastList ws e).map Prod.fst).count n =
      if ws.any (fun nw => nw.1 == n && nw.2.global.isSome) = true then 1 else 0 := by
  induction ws with
  | nil => simp [broadcastList]
  | cons head rest ih =>
    obtain ⟨k, w⟩ := head
    simp only [List.map_cons, List.nodup_cons] at hnd
    obtain ⟨hk, hrest⟩ := hnd
    have hanyn : k = n → rest.any (fun nw => nw.1 == n && nw.2.global.isSome) = false := by
      intro hkn
      subst hkn
      rw [List.any_eq_false]
      rintro ⟨k1, w1⟩ hm
      simp only [Bool.and_eq_true, beq_iff_eq, not_and, Bool.not_eq_true]
      intro hek
      exact absurd (List.mem_map.2 ⟨(k1, w1), hm, hek⟩) hk
    by_cases hkn : k = n
    · subst hkn
      cases hg : w.global with
      | none => simp [broadcastList, hg, ih hrest, hanyn rfl]
      | some g => simp [broadcastList, hg, ih hrest, hanyn rfl]
    · have hcond : (((k, w) :: rest).any fun nw => nw.1 == n && nw.2.global.isSome) =
          (rest.any fun nw => nw.1 == n && nw.2.global.isSome) := by
        have hbk : (k == n) = false := by
          simp [hkn]
        simp only [List.any_cons, hbk, Bool.false_and, Bool.false_or]
      rw [hcond]
      cases hg : w.global with
      | none =>
        simp only [broadcastList, hg]
        exact ih hrest
      | some g =>
        simp only [broadcastList, hg, List.map_cons]
        rw [List.count_cons_of_ne (Ne.symm hkn)]
        exact ih hrest

/-- Every wrapper with a non-nil global in the map has its recovered
Event invocation recorded in the pass, panicking or not. -/
theorem broadcastList_mem (ws : List (String × PluginWrapper)) (e : String)
    (n : String) (g : PluginGlobalB) (w : PluginWrapper)
    (hm : (n, w) ∈ ws) (hg : w.global = some g) :
    (n, safe_plugin_global_event g e) ∈ broadcastList ws e := by
  induction ws with
  | nil => simp at hm
  | cons head rest ih =>
    obtain ⟨k, w0⟩ := head
    rcases List.mem_cons.1 hm with hh | ht
    · have hk : n = k := congrArg Prod.fst hh
      have hw : w = w0 := congrArg Prod.snd hh
      subst hk
      subst hw
      simp [broadcastList, hg]
    · cases hg0 : w0.global with
      | none => simpa [broadcastList, hg0] using ih ht
      | some g0 => simp [broadcastList, hg0, ih ht]

/-- C9 counterexample: a configured decoder plugin with a non-nil
global is never notified — BroadcastEvent walks only the filter and
output wrapper maps, so on this configuration it performs zero
invocations instead of the exactly-one the claim demands. -/
theorem broadcast_misses_decoder_global :
    (cfgC9.decoders.any fun nw => nw.2.global.isSome) = true ∧
    BroadcastEvent cfgC9 "reload" = [] :=
  ⟨rfl, rfl⟩

/-- C9 (amended): BroadcastEvent invokes the Event handler exactly once,
under the panic wrapper, on the global of every configured filter and
output plugin whose global is non-nil (filters first, then outputs);
input and decoder globals are not notified.  A panicking handler is
recovered, its invocation is still recorded, and every other subscriber
in the two maps is still notified. -/
theorem broadcast_filters_outputs (config : PipelineConfig) (e : String)
    (hf : (config.filters.map Prod.fst).Nodup)
    (ho : (config.outputs.map Prod.fst).Nodup) :
    BroadcastEvent config e =
      broadcastList config.filters e ++ broadcastList config.outputs e ∧
    (∀ n,
      (((broadcastList config.filters e).map Prod.fst).count n =
        if (config.filters.any fun nw => nw.1 == n && nw.2.global.isSome) = true
        then 1 else 0) ∧
      (((broadcastList config.outputs e).map Prod.fst).count n =
        if (config.outputs.any fun nw => nw.1 == n && nw.2.global.isSome) = true
        then 1 else 0)) ∧
    (∀ (n : String) (w : PluginWrapper) (g : PluginGlobalB),
      ((n, w) ∈ config.filters ∨ (n, w) ∈ config.outputs) → w.global = some g →
      (n, safe_plugin_global_event g e) ∈ BroadcastEvent config e) := by
  refine ⟨rfl, ?_, ?_⟩
  · intro n
    exact ⟨broadcastList_count config.filters e hf n,
      broadcastList_count config.outputs e ho n⟩
  · intro n w g hm hg
    rcases hm with hmf | hmo
    · exact List.mem_append.2 (Or.inl (broadcastList_mem config.filters e n g w hmf hg))
    · exact List.mem_append.2 (Or.inr (broadcastList_mem config.outputs e n g w hmo hg))

/-- Witness for amended C9 on a configuration with one filter global
whose handler panics and one output global: both are invoked exactly
once, the panicking one included. -/
theorem broadcast_filters_outputs_witness :
    BroadcastEvent
        { cfg0 with
          filters := [("f", { name := "f", global := some { event := fun _ => .panics } })],
          outputs := [("o", { name := "o", global := some gC9 })] } "stop" =
      [("f", EventOutcome.panics), ("o", EventOutcome.ok)] ∧
    ((BroadcastEvent
        { cfg0 with
          filters := [("f", { name := "f", global := some { event := fun _ => .panics } })],
          outputs := [("o", { name := "o", global := some gC9 })] } "stop").map
        Prod.fst).count "f" = 1 := by
  have h := broadcast_filters_outputs
    { cfg0 with
      filters := [("f", { name := "f", global := some { event := fun _ => .panics } })],
      outputs := [("o", { name := "o", global := some gC9 })] } "stop"
    (by decide) (by decide)
  exact ⟨h.1, by decide⟩

end Heka
